import Mathlib

/-!
Verification of the reconciliation engine of the on-cloud repository.

The Go sources are embedded shallowly: each Go function the claims touch is
translated into an executable Lean definition of the same name; the cloud
provider boundary (AWS SDK calls) is passed in as explicit data or result
parameters, matching the spec's treatment of the provider as an opaque
request/response boundary.
-/

namespace OnCloud

/-- A live EC2 instance as returned by DescribeInstances: exactly the fields
of the SDK's types.Instance that this program reads (identity, lifecycle
state, instance type, image, key name, security group ids, tags). -/
structure Instance where
  instanceId : String
  state : String
  instanceType : String
  imageId : String
  keyName : String
  securityGroups : List String
  tags : List (String × String)
deriving Repr, DecidableEq

/-- The ec2_instance block of the YAML configuration, as used by
compareStates and handleEC2Instance (src/unnamed/part_001, src/go4gold.go). -/
structure EC2Config where
  name : String
  instanceType : String
  ami : String
  keyName : String
  securityGroups : List String
  tags : List (String × String)
deriving Repr, DecidableEq

/-- One change-set entry. The Go code renders each entry as a formatted line
carrying a field name, the observed value and the desired value. -/
structure ChangeEntry where
  fieldName : String
  observed : String
  desiredVal : String
deriving Repr, DecidableEq

/-- The currentTags Go map built in compareStates from the instance's tag
list: a later duplicate key overwrites an earlier one, and a missing key
reads as the empty string (Go's zero value for map lookup). -/
def buildTagMap (tags : List (String × String)) (key : String) : String :=
  (tags.foldl (fun acc kv => if kv.1 = key then some kv.2 else acc) none).getD ""

/-- compareStates from src/unnamed/part_001 lines 132-164: scalar fields
(instance type, AMI, key name) are compared by exact equality; security
groups are compared by length only (the source comment says simplified);
tags are compared by iterating the desired tag set and looking each key up
in the observed tag map. -/
def compareStates (current : Instance) (desired : EC2Config) : List ChangeEntry :=
  (if current.instanceType ≠ desired.instanceType then
     [{ fieldName := "Instance Type", observed := current.instanceType,
        desiredVal := desired.instanceType }]
   else [])
  ++ (if current.imageId ≠ desired.ami then
       [{ fieldName := "AMI", observed := current.imageId, desiredVal := desired.ami }]
     else [])
  ++ (if current.keyName ≠ desired.keyName then
       [{ fieldName := "Key Name", observed := current.keyName, desiredVal := desired.keyName }]
     else [])
  ++ (if current.securityGroups.length ≠ desired.securityGroups.length then
       [{ fieldName := "Security Groups", observed := toString current.securityGroups,
          desiredVal := toString desired.securityGroups }]
     else [])
  ++ desired.tags.filterMap (fun kv =>
       if buildTagMap current.tags kv.1 ≠ kv.2 then
         some { fieldName := "Tag " ++ kv.1, observed := buildTagMap current.tags kv.1,
                desiredVal := kv.2 }
       else none)

/-- An observed instance whose security-group list has the same length as the
desired one but different members; every other compared field agrees. -/
def c1Current : Instance :=
  { instanceId := "i-0abc", state := "running", instanceType := "t2.micro",
    imageId := "ami-045602374a1982480", keyName := "deploy-key",
    securityGroups := ["sg-aaaa"], tags := [("Name", "web"), ("env", "prod")] }

/-- The desired spec matching c1Current on every compared field except the
security-group membership. -/
def c1Desired : EC2Config :=
  { name := "web", instanceType := "t2.micro", ami := "ami-045602374a1982480",
    keyName := "deploy-key", securityGroups := ["sg-bbbb"],
    tags := [("env", "prod")] }

/-- C1 counterexample: the Differ does not emit an entry exactly when observed
and desired are unequal. Here the observed and desired security-group lists
differ ("sg-aaaa" versus "sg-bbbb") yet the change set is empty, because
compareStates compares security groups by length only; so an unequal
set-valued field produces no entry and the pass is wrongly reported
Converged. -/
theorem compareStates_unequal_groups_no_entry :
    compareStates c1Current c1Desired = [] ∧
      c1Current.securityGroups ≠ c1Desired.securityGroups := by
  constructor
  · rfl
  · decide

/-- C1 (amended): the change set is empty exactly when the scalar fields are
equal, the security-group lists have equal length (membership is not
compared), and every desired tag's effective value equals its observed
value (tags present only on the observed side are not compared). Equal
observed/desired pairs therefore yield an empty change set, and no entry is
emitted for an equal field; but completeness fails for set-valued fields:
equal-length security-group lists with different members emit nothing. -/
theorem compareStates_empty_iff (current : Instance) (desired : EC2Config) :
    compareStates current desired = [] ↔
      (current.instanceType = desired.instanceType ∧
       current.imageId = desired.ami ∧
       current.keyName = desired.keyName ∧
       current.securityGroups.length = desired.securityGroups.length ∧
       ∀ kv ∈ desired.tags, buildTagMap current.tags kv.1 = kv.2) := by
  simp only [compareStates, List.append_eq_nil, List.filterMap_eq_nil_iff]
  constructor
  · rintro ⟨⟨⟨⟨h1, h2⟩, h3⟩, h4⟩, h5⟩
    refine ⟨?_, ?_, ?_, ?_, ?_⟩
    · by_contra hne; simp [hne] at h1
    · by_contra hne; simp [hne] at h2
    · by_contra hne; simp [hne] at h3
    · by_contra hne; simp [hne] at h4
    · intro kv hkv
      have := h5 kv hkv
      by_contra hne
      simp [hne] at this
  · rintro ⟨h1, h2, h3, h4, h5⟩
    refine ⟨⟨⟨⟨?_, ?_⟩, ?_⟩, ?_⟩, ?_⟩
    · simp [h1]
    · simp [h2]
    · simp [h3]
    · simp [h4]
    · intro kv hkv
      simp [h5 kv hkv]

/-- C1 witness: a concrete observed/desired pair that is field-for-field
equal yields the empty change set (Converged), via the amended theorem. -/
theorem compareStates_empty_iff_witness :
    compareStates c1Current
      { c1Desired with securityGroups := ["sg-aaaa"] } = [] :=
  (compareStates_empty_iff c1Current
      { c1Desired with securityGroups := ["sg-aaaa"] }).mpr (by decide)

/-- The trace of one retry.Do run: the final result, the number of attempts
actually made, and the seconds slept between consecutive attempts. -/
structure RetryTrace (E : Type) where
  result : Except E Unit
  attemptsMade : Nat
  delays : List Nat
deriving Repr

/-- Modelled from the spec: the retry.Do combinator comes from the external
retry-go library, whose code is not part of this repository; only its call
sites (createEC2InstanceWithRetry in src/main.go, createS3Bucket in
src/go4gold.go) are. Per spec section 4.2 it makes at most `fuel` attempts
in total, sleeps a fixed `delaySec` seconds between consecutive attempts
(no jitter, no backoff), returns on the first success, and after exhausting
the attempts propagates the last attempt's error unchanged. `op k` is the
result of the k-th attempt, counted from 0. -/
def retryRun (op : Nat → Except E Unit) (delaySec : Nat) : Nat → Nat → RetryTrace E
  | k, 0 => { result := op k, attemptsMade := 1, delays := [] }
  | k, 1 => { result := op k, attemptsMade := 1, delays := [] }
  | k, n + 2 =>
    match op k with
    | .ok u => { result := .ok u, attemptsMade := 1, delays := [] }
    | .error _ =>
      let t := retryRun op delaySec (k + 1) (n + 1)
      { result := t.result, attemptsMade := t.attemptsMade + 1, delays := delaySec :: t.delays }

/-- retry.Do as configured at both call sites in this repository:
retry.Attempts(3) and retry.Delay(2*time.Second). -/
def retryDo (op : Nat → Except E Unit) : RetryTrace E :=
  retryRun op 2 0 3

/-- At most 3 attempts are ever made by retryDo. -/
theorem retryDo_attempts_le (op : Nat → Except E Unit) :
    (retryDo op).attemptsMade ≤ 3 := by
  rcases h0 : op 0 with e0 | u0
  · rcases h1 : op 1 with e1 | u1
    · simp [retryDo, retryRun, h0, h1]
    · simp [retryDo, retryRun, h0, h1]
  · simp [retryDo, retryRun, h0]

/-- Every inter-attempt delay performed by retryDo is 2 seconds. -/
theorem retryDo_delays_two (op : Nat → Except E Unit) :
    ∀ d ∈ (retryDo op).delays, d = 2 := by
  rcases h0 : op 0 with e0 | u0
  · rcases h1 : op 1 with e1 | u1
    · simp [retryDo, retryRun, h0, h1]
    · simp [retryDo, retryRun, h0, h1]
  · simp [retryDo, retryRun, h0]

/-- An operation failing twice and succeeding on the 3rd attempt returns
success after exactly 3 attempts. -/
theorem retryDo_third_ok (op : Nat → Except E Unit) (e0 e1 : E)
    (h0 : op 0 = .error e0) (h1 : op 1 = .error e1) (h2 : op 2 = .ok ()) :
    (retryDo op).result = .ok () ∧ (retryDo op).attemptsMade = 3 := by
  constructor <;> simp [retryDo, retryRun, h0, h1, h2]

/-- An operation failing on all 3 attempts surfaces the 3rd attempt's error
unchanged, after two 2-second delays. -/
theorem retryDo_all_fail (op : Nat → Except E Unit) (e0 e1 e2 : E)
    (h0 : op 0 = .error e0) (h1 : op 1 = .error e1) (h2 : op 2 = .error e2) :
    (retryDo op).result = .error e2 ∧ (retryDo op).attemptsMade = 3 ∧
      (retryDo op).delays = [2, 2] := by
  refine ⟨?_, ?_, ?_⟩ <;> simp [retryDo, retryRun, h0, h1, h2]

/-- C5: the Retry Wrapper makes at most 3 attempts with a fixed 2-second
delay between attempts; an operation failing twice and succeeding on the
3rd attempt yields success (in exactly 3 attempts), and one failing on all
3 attempts propagates the 3rd attempt's error unchanged, after two
2-second inter-attempt delays. -/
theorem retry_three_attempts_last_error (op : Nat → Except String Unit) :
    (retryDo op).attemptsMade ≤ 3 ∧
    (∀ d ∈ (retryDo op).delays, d = 2) ∧
    (∀ e0 e1, op 0 = .error e0 → op 1 = .error e1 → op 2 = .ok () →
      (retryDo op).result = .ok () ∧ (retryDo op).attemptsMade = 3) ∧
    (∀ e0 e1 e2, op 0 = .error e0 → op 1 = .error e1 → op 2 = .error e2 →
      (retryDo op).result = .error e2 ∧ (retryDo op).attemptsMade = 3 ∧
        (retryDo op).delays = [2, 2]) :=
  ⟨retryDo_attempts_le op, retryDo_delays_two op,
   fun e0 e1 h0 h1 h2 => retryDo_third_ok op e0 e1 h0 h1 h2,
   fun e0 e1 e2 h0 h1 h2 => retryDo_all_fail op e0 e1 e2 h0 h1 h2⟩

/-- An operation that fails on its first two attempts and succeeds on the
third. -/
def opSucceedsThird : Nat → Except String Unit :=
  fun k => if k < 2 then .error ("transient") else .ok ()

/-- An operation that fails on every attempt, with a distinguished error on
the third attempt. -/
def opFailsAll : Nat → Except String Unit :=
  fun k => if k = 2 then .error ("last") else .error ("boom")

/-- C5 witness: concrete runs of the two scenarios through the wrapper. -/
theorem retry_three_attempts_last_error_witness :
    (retryDo opSucceedsThird).result = .ok () ∧
    (retryDo opSucceedsThird).attemptsMade = 3 ∧
    (retryDo opFailsAll).result = .error ("last") ∧
    (retryDo opFailsAll).delays = [2, 2] := by
  refine ⟨?_, ?_, ?_, ?_⟩
  · exact ((retry_three_attempts_last_error opSucceedsThird).2.2.1
      "transient" "transient" rfl rfl rfl).1
  · exact ((retry_three_attempts_last_error opSucceedsThird).2.2.1
      "transient" "transient" rfl rfl rfl).2
  · exact ((retry_three_attempts_last_error opFailsAll).2.2.2
      "boom" "boom" "last" rfl rfl rfl).1
  · exact ((retry_three_attempts_last_error opFailsAll).2.2.2
      "boom" "boom" "last" rfl rfl rfl).2.2

/-- A single mutating Provider Gateway request issued by the EC2 fleet
logic: a RunInstances call, or a batched TerminateInstances call naming the
listed identities. -/
inductive ProviderCall
  | runInstances
  | terminate (ids : List String)
deriving Repr, DecidableEq

/-- An error of a single instance-creation attempt: one of the three
pre-call validation failures, or an error returned by the RunInstances
provider call. -/
inductive CreateErr
  | subnetRequired
  | sgRequired
  | amiRequired
  | provider (msg : String)
deriving Repr, DecidableEq

/-- The EC2InstanceConfig struct of src/main.go. -/
structure EC2InstanceConfig where
  name : String
  instanceType : String
  ami : String
  keyName : String
  tags : List (String × String)
  vpcSecurityGroupIDs : List String
  monitoring : Bool
  desiredCount : Int
  os : String
deriving Repr, DecidableEq

/-- createEC2Instance from src/main.go lines 266-319: validates the subnet
id, the security-group list and the AMI before issuing the RunInstances
provider call; `providerResult` is the provider's answer to that call on
this attempt. Returns the provider calls issued and the result. -/
def createEC2Instance (instanceConfig : EC2InstanceConfig) (subnetID : String)
    (providerResult : Except String Unit) : List ProviderCall × Except CreateErr Unit :=
  if subnetID = "" then ([], .error .subnetRequired)
  else if instanceConfig.vpcSecurityGroupIDs.length = 0 then ([], .error .sgRequired)
  else if instanceConfig.ami = "" then ([], .error .amiRequired)
  else
    match providerResult with
    | .ok _ => ([ProviderCall.runInstances], .ok ())
    | .error e => ([ProviderCall.runInstances], .error (.provider e))

/-- createEC2InstanceWithRetry from src/main.go lines 333-342: wraps
createEC2Instance in retry.Do with 3 attempts and a 2-second delay;
`provider k` is the RunInstances outcome on attempt k. -/
def createEC2InstanceWithRetry (instanceConfig : EC2InstanceConfig) (subnetID : String)
    (provider : Nat → Except String Unit) : RetryTrace CreateErr :=
  retryDo (fun k => (createEC2Instance instanceConfig subnetID (provider k)).2)

/-- A config whose AMI is missing (empty), with the other required fields
present. -/
def badAmiCfg : EC2InstanceConfig :=
  { name := "web", instanceType := "t2.micro", ami := "", keyName := "deploy-key",
    tags := [], vpcSecurityGroupIDs := ["sg-1"], monitoring := false,
    desiredCount := 1, os := "amazonLinux2" }

/-- C6 counterexample: a validation error (missing machine image) reaching
the retry wrapper does not fail immediately without consuming a retry
attempt: the wrapper makes all 3 attempts (with its inter-attempt delays)
before surfacing the validation error, because retry.Do at this call site
retries every error. No provider call is issued on any attempt. -/
theorem validation_error_retried_counterexample :
    (createEC2InstanceWithRetry badAmiCfg "subnet-1" (fun _ => .ok ())).attemptsMade = 3 ∧
    (createEC2InstanceWithRetry badAmiCfg "subnet-1" (fun _ => .ok ())).result
      = .error CreateErr.amiRequired ∧
    (createEC2Instance badAmiCfg "subnet-1" (.ok ())).1 = [] := by
  refine ⟨?_, ?_, ?_⟩ <;> rfl

/-- C6 (amended): a validation error (missing subnet, missing security
groups or missing machine image) is detected before the provider call is
issued — no RunInstances call is made on any attempt — but the retry
wrapper does not exempt it: the wrapper still makes all 3 attempts, each
failing the same validation, and then surfaces the validation error. (In
the mainHandler pass these configurations are rejected even earlier by
validateConfig, so a validation error never reaches the wrapper there.) -/
theorem validation_error_before_call_but_retried (cfg : EC2InstanceConfig)
    (subnetID : String) (provider : Nat → Except String Unit)
    (hval : subnetID = "" ∨ cfg.vpcSecurityGroupIDs.length = 0 ∨ cfg.ami = "") :
    (∀ r, (createEC2Instance cfg subnetID r).1 = []) ∧
    (createEC2InstanceWithRetry cfg subnetID provider).attemptsMade = 3 ∧
    ∃ e, (createEC2InstanceWithRetry cfg subnetID provider).result = .error e ∧
      (e = CreateErr.subnetRequired ∨ e = CreateErr.sgRequired ∨ e = CreateErr.amiRequired) := by
  have key : ∃ e, (e = CreateErr.subnetRequired ∨ e = CreateErr.sgRequired ∨
      e = CreateErr.amiRequired) ∧
      ∀ r, createEC2Instance cfg subnetID r = ([], .error e) := by
    rcases hval with h | h | h
    · exact ⟨.subnetRequired, Or.inl rfl, fun r => by simp [createEC2Instance, h]⟩
    · rcases em (subnetID = "") with hs | hs
      · exact ⟨.subnetRequired, Or.inl rfl, fun r => by simp [createEC2Instance, hs]⟩
      · exact ⟨.sgRequired, Or.inr (Or.inl rfl), fun r => by
          simp [createEC2Instance, hs, h]⟩
    · rcases em (subnetID = "") with hs | hs
      · exact ⟨.subnetRequired, Or.inl rfl, fun r => by simp [createEC2Instance, hs]⟩
      · rcases em (cfg.vpcSecurityGroupIDs.length = 0) with hg | hg
        · exact ⟨.sgRequired, Or.inr (Or.inl rfl), fun r => by
            simp [createEC2Instance, hs, hg]⟩
        · exact ⟨.amiRequired, Or.inr (Or.inr rfl), fun r => by
            simp [createEC2Instance, hs, hg, h]⟩
  obtain ⟨e, he, hall⟩ := key
  have hcalls : ∀ r, (createEC2Instance cfg subnetID r).1 = [] := fun r => by
    rw [hall r]
  have hres : ∀ k, (createEC2Instance cfg subnetID (provider k)).2 = .error e := fun k => by
    rw [hall (provider k)]
  refine ⟨hcalls, ?_, e, ?_, he⟩
  · simp [createEC2InstanceWithRetry, retryDo, retryRun, hres]
  · simp [createEC2InstanceWithRetry, retryDo, retryRun, hres]

/-- C6 witness: the amended theorem at the concrete missing-AMI config. -/
theorem validation_error_before_call_but_retried_witness :
    (createEC2Instance badAmiCfg "subnet-1" (.ok ())).1 = [] ∧
    (createEC2InstanceWithRetry badAmiCfg "subnet-1" (fun _ => .ok ())).attemptsMade = 3 := by
  have h := validation_error_before_call_but_retried badAmiCfg "subnet-1"
    (fun _ => .ok ()) (Or.inr (Or.inr (by decide)))
  exact ⟨h.1 (.ok ()), h.2.1⟩

/-- FleetDelta as computed by mainHandler (src/main.go line 118):
instancesToCreate := DesiredCount - len(existingInstances). -/
def fleetDelta (observedCount : Nat) (desiredCount : Int) : Int :=
  desiredCount - observedCount

/-- terminateExcessInstances from src/main.go lines 344-367: with a
non-positive count no call is made; otherwise the loop collects the
instance ids at indices 0..count-1 that fall inside the observed list
(clipping to the observed count) and issues a single batched
TerminateInstances call naming exactly those ids. -/
def terminateExcessInstances (instances : List Instance) (count : Int) :
    List ProviderCall :=
  if count ≤ 0 then []
  else
    let instanceIDs := (List.range count.toNat).filterMap
      (fun i => (instances.get? i).map Instance.instanceId)
    [ProviderCall.terminate instanceIDs]

/-- The loop body ids of terminateExcessInstances are the ids of the first
min(count, length) observed instances, in first-seen order. -/
theorem range_filterMap_get (f : Instance → String) :
    ∀ (l : List Instance) (n : Nat),
      (List.range n).filterMap (fun i => (l.get? i).map f) = (l.take n).map f := by
  intro l
  induction l with
  | nil =>
    intro n
    simp
  | cons a l ih =>
    intro n
    cases n with
    | zero => simp
    | succ m =>
      rw [List.range_succ_eq_map]
      simp only [List.filterMap_cons, List.get?_cons_zero, Option.map_some]
      rw [List.filterMap_map]
      have : ((fun i => ((a :: l).get? i).map f) ∘ Nat.succ)
          = fun i => (l.get? i).map f := by
        funext i
        simp
      rw [this, ih m]
      simp

/-- The create loop of mainHandler (src/main.go lines 120-130): starting at
create index `i`, runs up to `n` instance creations; `attempt i` is the
result of the i-th createEC2InstanceWithRetry call. The loop stops at the
first create whose retries are exhausted (log.Fatalf ends the pass there).
Returns (create invocations made, successful creates, first error if any). -/
def createLoop (attempt : Nat → Except CreateErr Unit) :
    Nat → Nat → Nat × Nat × Option CreateErr
  | _, 0 => (0, 0, none)
  | i, n + 1 =>
    match attempt i with
    | .ok _ =>
      let t := createLoop attempt (i + 1) n
      (t.1 + 1, t.2.1 + 1, t.2.2)
    | .error e => (1, 0, some e)

/-- When every attempted create succeeds, the loop makes exactly n
invocations, all successful. -/
theorem createLoop_all_ok (attempt : Nat → Except CreateErr Unit) :
    ∀ (n i : Nat), (∀ j, j < n → attempt (i + j) = .ok ()) →
      createLoop attempt i n = (n, n, none) := by
  intro n
  induction n with
  | zero => intro i _; rfl
  | succ m ih =>
    intro i h
    have h0 : attempt i = .ok () := by
      have := h 0 (Nat.succ_pos m)
      simpa using this
    have hrest : ∀ j, j < m → attempt (i + 1 + j) = .ok () := by
      intro j hj
      have hi : i + 1 + j = i + (j + 1) := by omega
      rw [hi]
      exact h (j + 1) (Nat.succ_lt_succ hj)
    simp [createLoop, h0, ih (i + 1) hrest]

/-- When the k-th create (0-based) is the first to fail, the loop makes
exactly k+1 invocations, of which k succeed, and stops with that error. -/
theorem createLoop_first_fail (attempt : Nat → Except CreateErr Unit) :
    ∀ (n i k : Nat) (e : CreateErr), k < n →
      (∀ j, j < k → attempt (i + j) = .ok ()) →
      attempt (i + k) = .error e →
      createLoop attempt i n = (k + 1, k, some e) := by
  intro n
  induction n with
  | zero => intro i k e hk; omega
  | succ m ih =>
    intro i k e hk hok hfail
    cases k with
    | zero =>
      have h0 : attempt i = .error e := by simpa using hfail
      simp [createLoop, h0]
    | succ j =>
      have h0 : attempt i = .ok () := by
        have := hok 0 (Nat.succ_pos j)
        simpa using this
      have hok2 : ∀ p, p < j → attempt (i + 1 + p) = .ok () := by
        intro p hp
        have hi : i + 1 + p = i + (p + 1) := by omega
        rw [hi]
        exact hok (p + 1) (Nat.succ_lt_succ hp)
      have hfail2 : attempt (i + 1 + j) = .error e := by
        have hi : i + 1 + j = i + (j + 1) := by omega
        rw [hi]
        exact hfail
      have hrec := ih (i + 1) j e (Nat.lt_of_succ_lt_succ hk) hok2 hfail2
      simp [createLoop, h0, hrec]

/-- The result of one mainHandler fleet pass: how many
createEC2InstanceWithRetry calls were invoked, how many instances were
actually created by this pass, the terminate calls issued, and the terminal
outcome. -/
structure FleetResult where
  createInvocations : Nat
  createdCount : Nat
  terminateCalls : List ProviderCall
  outcome : Option CreateErr
deriving Repr, DecidableEq

/-- The fleet-sizing core of mainHandler (src/main.go lines 112-141): if the
observed count equals the desired count the pass returns with no action;
otherwise instancesToCreate = desired - observed. If positive, that many
createEC2InstanceWithRetry calls run in sequence, ending the pass at the
first exhausted-retries failure (log.Fatalf); if negative, the excess
count is passed to terminateExcessInstances. `provider i k` is the
RunInstances outcome of attempt k of create i. -/
def mainHandlerFleet (existing : List Instance) (desiredCount : Int)
    (cfg : EC2InstanceConfig) (subnetID : String)
    (provider : Nat → Nat → Except String Unit) : FleetResult :=
  if (existing.length : Int) = desiredCount then
    { createInvocations := 0, createdCount := 0, terminateCalls := [], outcome := none }
  else
    let instancesToCreate : Int := desiredCount - (existing.length : Int)
    if 0 < instancesToCreate then
      let t := createLoop
        (fun i => (createEC2InstanceWithRetry cfg subnetID (provider i)).result)
        0 instancesToCreate.toNat
      { createInvocations := t.1, createdCount := t.2.1, terminateCalls := [],
        outcome := t.2.2 }
    else
      { createInvocations := 0, createdCount := 0,
        terminateCalls := terminateExcessInstances existing (-instancesToCreate),
        outcome := none }

/-- C2: FleetDelta is the desired replica count minus the observed count,
and when it is zero the pass issues no provider call and ends with no
action taken. -/
theorem fleetDelta_zero_no_action (existing : List Instance) (desiredCount : Int)
    (cfg : EC2InstanceConfig) (subnetID : String)
    (provider : Nat → Nat → Except String Unit)
    (h : fleetDelta existing.length desiredCount = 0) :
    fleetDelta existing.length desiredCount = desiredCount - (existing.length : Int) ∧
    mainHandlerFleet existing desiredCount cfg subnetID provider =
      { createInvocations := 0, createdCount := 0, terminateCalls := [], outcome := none } := by
  have heq : (existing.length : Int) = desiredCount := by
    unfold fleetDelta at h
    omega
  exact ⟨rfl, by simp [mainHandlerFleet, heq]⟩

/-- Three observed instances, used as concrete fleet snapshots. -/
def obsFleet3 : List Instance :=
  [{ instanceId := "i-1", state := "running", instanceType := "t2.micro",
     imageId := "ami-1", keyName := "k", securityGroups := ["sg-1"], tags := [] },
   { instanceId := "i-2", state := "running", instanceType := "t2.micro",
     imageId := "ami-1", keyName := "k", securityGroups := ["sg-1"], tags := [] },
   { instanceId := "i-3", state := "running", instanceType := "t2.micro",
     imageId := "ami-1", keyName := "k", securityGroups := ["sg-1"], tags := [] }]

/-- C2 witness: observed count 3, desired count 3 gives FleetDelta 0, no
provider call and no action. -/
theorem fleetDelta_zero_no_action_witness :
    mainHandlerFleet obsFleet3 3 badAmiCfg "subnet-1" (fun _ _ => .ok ()) =
      { createInvocations := 0, createdCount := 0, terminateCalls := [], outcome := none } :=
  (fleetDelta_zero_no_action obsFleet3 3 badAmiCfg "subnet-1" (fun _ _ => .ok ())
    (by decide)).2

/-- C3: with a positive termination count the Fleet Sizer issues exactly one
batched terminate call naming the ids of the first min(count, observed)
instances in first-seen order (the selection clips to the observed count);
and in a mainHandler pass with a negative FleetDelta the terminate call
names the first (observed - desired) instance ids. The selection is a pure
function of the observed snapshot, so repeating it on the same snapshot
selects the same victims. -/
theorem terminate_selects_earliest_clipped (instances : List Instance) (count : Int)
    (h : 0 < count) :
    terminateExcessInstances instances count =
      [ProviderCall.terminate ((instances.take count.toNat).map Instance.instanceId)] ∧
    ((instances.take count.toNat).map Instance.instanceId).length =
      min count.toNat instances.length ∧
    (∀ (desiredCount : Int) (cfg : EC2InstanceConfig) (subnetID : String)
        (provider : Nat → Nat → Except String Unit),
      desiredCount < (instances.length : Int) →
      (mainHandlerFleet instances desiredCount cfg subnetID provider).terminateCalls =
        [ProviderCall.terminate
          ((instances.take ((instances.length : Int) - desiredCount).toNat).map
            Instance.instanceId)]) := by
  have hmain : ∀ (c : Int), 0 < c →
      terminateExcessInstances instances c =
        [ProviderCall.terminate ((instances.take c.toNat).map Instance.instanceId)] := by
    intro c hc
    unfold terminateExcessInstances
    rw [if_neg (by omega)]
    rw [range_filterMap_get Instance.instanceId instances c.toNat]
  refine ⟨hmain count h, ?_, ?_⟩
  · simp [Nat.min_comm]
  · intro desiredCount cfg subnetID provider hlt
    unfold mainHandlerFleet
    rw [if_neg (by omega), if_neg (by omega)]
    simp only
    rw [show -(desiredCount - (instances.length : Int)) = (instances.length : Int) - desiredCount by ring]
    exact hmain ((instances.length : Int) - desiredCount) (by omega)

/-- Five observed instances for the scale-down witness. -/
def obsFleet5 : List Instance :=
  obsFleet3 ++
  [{ instanceId := "i-4", state := "running", instanceType := "t2.micro",
     imageId := "ami-1", keyName := "k", securityGroups := ["sg-1"], tags := [] },
   { instanceId := "i-5", state := "running", instanceType := "t2.micro",
     imageId := "ami-1", keyName := "k", securityGroups := ["sg-1"], tags := [] }]

/-- C3 witness: observed count 5, desired count 2: exactly the 3
earliest-observed identities are named in one batched terminate call. -/
theorem terminate_selects_earliest_clipped_witness :
    terminateExcessInstances obsFleet5 3 =
      [ProviderCall.terminate ["i-1", "i-2", "i-3"]] ∧
    (mainHandlerFleet obsFleet5 2 badAmiCfg "subnet-1" (fun _ _ => .ok ())).terminateCalls =
      [ProviderCall.terminate ["i-1", "i-2", "i-3"]] := by
  have h := terminate_selects_earliest_clipped obsFleet5 3 (by decide)
  constructor
  · rw [h.1]; rfl
  · rw [h.2.2 2 badAmiCfg "subnet-1" (fun _ _ => .ok ()) (by decide)]; rfl

/-- C7: with a positive FleetDelta the pass issues exactly delta independent
creates, each individually wrapped in the retry wrapper. If every create
succeeds, delta instances are created; if the (k+1)-th create fails after
exhausting its retries, the pass ends immediately with that failure, the k
instances already created remain (createdCount = k), and no compensating
terminate call is issued. -/
theorem scale_up_partial_failure (existing : List Instance) (desiredCount : Int)
    (cfg : EC2InstanceConfig) (subnetID : String)
    (provider : Nat → Nat → Except String Unit)
    (hpos : (existing.length : Int) < desiredCount) :
    ((∀ i, i < (desiredCount - (existing.length : Int)).toNat →
        (createEC2InstanceWithRetry cfg subnetID (provider i)).result = .ok ()) →
      mainHandlerFleet existing desiredCount cfg subnetID provider =
        { createInvocations := (desiredCount - (existing.length : Int)).toNat,
          createdCount := (desiredCount - (existing.length : Int)).toNat,
          terminateCalls := [], outcome := none }) ∧
    (∀ k e, k < (desiredCount - (existing.length : Int)).toNat →
      (∀ i, i < k →
        (createEC2InstanceWithRetry cfg subnetID (provider i)).result = .ok ()) →
      (createEC2InstanceWithRetry cfg subnetID (provider k)).result = .error e →
      mainHandlerFleet existing desiredCount cfg subnetID provider =
        { createInvocations := k + 1, createdCount := k,
          terminateCalls := [], outcome := some e }) := by
  constructor
  · intro hall
    unfold mainHandlerFleet
    rw [if_neg (by omega), if_pos (by omega)]
    simp only
    rw [createLoop_all_ok _ _ 0 (fun j hj => by simpa using hall j hj)]
  · intro k e hk hok hfail
    unfold mainHandlerFleet
    rw [if_neg (by omega), if_pos (by omega)]
    simp only
    rw [createLoop_first_fail _ _ 0 k e hk (fun j hj => by simpa using hok j hj)
      (by simpa using hfail)]

/-- Two observed instances for the scale-up witness. -/
def obsFleet2 : List Instance := obsFleet3.take 2

/-- A valid config (AMI present) for the scale-up witness. -/
def goodCfg : EC2InstanceConfig :=
  { badAmiCfg with ami := "ami-045602374a1982480" }

/-- A RunInstances provider whose 2nd create (index 1) fails on every
attempt while other creates succeed. -/
def providerSecondFails : Nat → Nat → Except String Unit :=
  fun i _ => if i = 1 then .error ("capacity") else .ok ()

/-- C7 witness: observed 2, desired 5 gives FleetDelta +3; with the 2nd
create failing after exhausting retries, the pass fails having created
exactly 1 instance in this pass (3 instances total, not 5), issuing 2
create invocations and no terminate call. -/
theorem scale_up_partial_failure_witness :
    mainHandlerFleet obsFleet2 5 goodCfg "subnet-1" providerSecondFails =
      { createInvocations := 2, createdCount := 1, terminateCalls := [],
        outcome := some (CreateErr.provider "capacity") } := by
  have h := (scale_up_partial_failure obsFleet2 5 goodCfg "subnet-1"
    providerSecondFails (by decide)).2 1 (CreateErr.provider "capacity")
    (by decide)
    (fun i hi => by
      interval_cases i
      rfl)
    (by rfl)
  simpa using h

/-- A DescribeInstances request filter: a filter name and its values
(types.Filter in the SDK). -/
structure Filter where
  name : String
  values : List String
deriving Repr, DecidableEq

/-- Modelled from the spec: the provider-side semantics of a
DescribeInstances filter (the provider is an external request/response
boundary, spec sections 1 and 4.1). The tag:Name filter matches an instance
carrying a Name tag with one of the given values; the instance-state-name
filter matches an instance whose lifecycle state is one of the given
values. These are the only filter names the embedded lookups use for
matching. -/
def matchesFilter (inst : Instance) (f : Filter) : Bool :=
  if f.name = "tag:Name" then
    f.values.any (fun v => inst.tags.any (fun kv => kv.1 == "Name" && kv.2 == v))
  else if f.name = "instance-state-name" then
    f.values.any (fun v => inst.state == v)
  else
    true

/-- The provider's DescribeInstances response for a world of reservations:
each reservation keeps the instances matching every filter. -/
def describeInstances (world : List (List Instance)) (filters : List Filter) :
    List (List Instance) :=
  world.map (List.filter (fun inst => filters.all (matchesFilter inst)))

/-- The double loop of findInstanceByName: the first instance of the first
non-empty reservation, in the provider's response order. -/
def firstInstance : List (List Instance) → Option Instance
  | [] => none
  | r :: rest =>
    match r with
    | [] => firstInstance rest
    | inst :: _ => some inst

/-- findInstanceByName from src/unnamed/part_001 lines 107-129: the request
carries a single tag:Name filter — no instance-state-name filter — and the
function returns the first instance of the first reservation of the
response, with its id ("" when nothing matches). -/
def findInstanceByName (world : List (List Instance)) (name : String) :
    Option (String × Instance) :=
  (firstInstance
      (describeInstances world [{ name := "tag:Name", values := [name] }])).map
    (fun inst => (inst.instanceId, inst))

/-- A mutating EC2 call issued by handleEC2Instance. -/
inductive EC2Call
  | runInstances
  | update (instanceId : String)
deriving Repr, DecidableEq

/-- The terminal outcome of one handleEC2Instance pass. -/
inductive EC2Outcome
  | created
  | updated
  | approvalRejected
  | converged
deriving Repr, DecidableEq

/-- handleEC2Instance from src/go4gold.go lines 111-158 (the same logic is
inlined in the main of src/unnamed/part_001 lines 53-104): if an instance
with the desired Name tag is found, the change set is computed; a non-empty
change set prompts the operator, and exactly the literal answer yes
proceeds to the update call, any other answer rejects with no mutating
call; an empty change set converges; with no instance found, a create is
issued. -/
def handleEC2Instance (world : List (List Instance)) (desired : EC2Config)
    (approval : String) : List EC2Call × EC2Outcome :=
  match findInstanceByName world desired.name with
  | some (instanceID, current) =>
    if instanceID = "" then ([EC2Call.runInstances], .created)
    else
      let changes := compareStates current desired
      if 0 < changes.length then
        if approval = "yes" then ([EC2Call.update instanceID], .updated)
        else ([], .approvalRejected)
      else ([], .converged)
  | none => ([EC2Call.runInstances], .created)

/-- C4: given a found instance with a non-empty change set, operator input
exactly yes causes the update to be invoked exactly once; any other input
(the empty string, Yes, y, ...) ends the pass as ApprovalRejected with zero
mutating calls. -/
theorem approval_gate_exact_yes (world : List (List Instance)) (desired : EC2Config)
    (instanceID : String) (current : Instance) (approval : String)
    (hfound : findInstanceByName world desired.name = some (instanceID, current))
    (hid : instanceID ≠ "")
    (hchanges : 0 < (compareStates current desired).length) :
    (approval = "yes" →
      handleEC2Instance world desired approval = ([EC2Call.update instanceID], .updated)) ∧
    (approval ≠ "yes" →
      handleEC2Instance world desired approval = ([], .approvalRejected)) := by
  constructor
  · intro hyes
    simp [handleEC2Instance, hfound, hid, hchanges, hyes]
  · intro hno
    simp [handleEC2Instance, hfound, hid, hchanges, hno]

/-- A live instance whose instance type differs from the desired one, so the
change set is non-empty. -/
def driftedInstance : Instance :=
  { instanceId := "i-0abc", state := "running", instanceType := "t2.small",
    imageId := "ami-045602374a1982480", keyName := "deploy-key",
    securityGroups := ["sg-aaaa"], tags := [("Name", "web")] }

/-- C4 witness: with the drifted instance found, input yes yields exactly
one update call, while Yes, y and the empty string each yield
ApprovalRejected and zero mutating calls. -/
theorem approval_gate_exact_yes_witness :
    handleEC2Instance [[driftedInstance]] c1Desired "yes"
      = ([EC2Call.update "i-0abc"], .updated) ∧
    handleEC2Instance [[driftedInstance]] c1Desired "Yes" = ([], .approvalRejected) ∧
    handleEC2Instance [[driftedInstance]] c1Desired "y" = ([], .approvalRejected) ∧
    handleEC2Instance [[driftedInstance]] c1Desired "" = ([], .approvalRejected) := by
  have hfound : findInstanceByName [[driftedInstance]] c1Desired.name
      = some ("i-0abc", driftedInstance) := by rfl
  refine ⟨?_, ?_, ?_, ?_⟩
  · exact (approval_gate_exact_yes [[driftedInstance]] c1Desired "i-0abc"
      driftedInstance "yes" hfound (by decide) (by decide)).1 rfl
  · exact (approval_gate_exact_yes [[driftedInstance]] c1Desired "i-0abc"
      driftedInstance "Yes" hfound (by decide) (by decide)).2 (by decide)
  · exact (approval_gate_exact_yes [[driftedInstance]] c1Desired "i-0abc"
      driftedInstance "y" hfound (by decide) (by decide)).2 (by decide)
  · exact (approval_gate_exact_yes [[driftedInstance]] c1Desired "i-0abc"
      driftedInstance "" hfound (by decide) (by decide)).2 (by decide)

/-- C10: findInstanceByName matches on the Name tag only — there is no
lifecycle-state condition, so the conclusion holds whatever inst.state is,
including terminated — and returns the first instance of the first
reservation of the response; consequently handleEC2Instance treats such an
instance as existing and never takes the create branch. -/
theorem findInstanceByName_ignores_state (inst : Instance) (r : List Instance)
    (rest : List (List Instance)) (desired : EC2Config) (approval : String)
    (htag : ("Name", desired.name) ∈ inst.tags)
    (hid : inst.instanceId ≠ "") :
    findInstanceByName ((inst :: r) :: rest) desired.name
      = some (inst.instanceId, inst) ∧
    (handleEC2Instance ((inst :: r) :: rest) desired approval).2 ≠ .created ∧
    EC2Call.runInstances ∉ (handleEC2Instance ((inst :: r) :: rest) desired approval).1 := by
  have hmatch : matchesFilter inst { name := "tag:Name", values := [desired.name] } = true := by
    unfold matchesFilter
    rw [if_pos rfl]
    apply List.any_eq_true.mpr
    refine ⟨desired.name, by simp, ?_⟩
    apply List.any_eq_true.mpr
    exact ⟨("Name", desired.name), htag, by simp⟩
  have hfind : findInstanceByName ((inst :: r) :: rest) desired.name
      = some (inst.instanceId, inst) := by
    simp [findInstanceByName, describeInstances, firstInstance, hmatch]
  refine ⟨hfind, ?_, ?_⟩
  · simp only [handleEC2Instance, hfind]
    rw [if_neg hid]
    by_cases hch : 0 < (compareStates inst desired).length
    · rw [if_pos hch]
      by_cases hyes : approval = "yes"
      · simp [hyes]
      · simp [hyes]
    · rw [if_neg hch]
      simp
  · simp only [handleEC2Instance, hfind]
    rw [if_neg hid]
    by_cases hch : 0 < (compareStates inst desired).length
    · rw [if_pos hch]
      by_cases hyes : approval = "yes"
      · simp [hyes]
      · simp [hyes]
    · rw [if_neg hch]
      simp

/-- A terminated instance still carrying the matching Name tag. -/
def terminatedWeb : Instance :=
  { instanceId := "i-dead", state := "terminated", instanceType := "t2.micro",
    imageId := "ami-045602374a1982480", keyName := "deploy-key",
    securityGroups := ["sg-aaaa"], tags := [("Name", "web")] }

/-- C10 witness: the terminated instance is returned by the lookup and the
pass takes the diff/update route, not create. -/
theorem findInstanceByName_ignores_state_witness :
    findInstanceByName [[terminatedWeb]] c1Desired.name
      = some ("i-dead", terminatedWeb) ∧
    (handleEC2Instance [[terminatedWeb]] c1Desired "no").2 ≠ .created := by
  have h := findInstanceByName_ignores_state terminatedWeb [] [] c1Desired "no"
    (by decide) (by decide)
  exact ⟨h.1, h.2.1⟩

/-- The n-th candidate bucket name tried by getUniqueBucketName: the base
name itself, then base-1 .. base-9. -/
def nthCandidate (baseName : String) : Nat → String
  | 0 => baseName
  | k + 1 => baseName ++ "-" ++ toString (k + 1)

/-- The loop of getUniqueBucketName (src/go4gold.go lines 182-195): `name`
is the candidate currently under test, `i` the loop counter, and the fuel
is the remaining iterations (10 at the start). `ex` is
checkS3BucketExists, answering whether a bucket name is taken or failing
with a provider error. -/
def getUniqueAux (ex : String → Except String Bool) (baseName : String) :
    String → Nat → Nat → Except String String
  | _, _, 0 => .error ("could not find a unique bucket name after 10 attempts")
  | name, i, n + 1 =>
    match ex name with
    | .error e => .error ("failed to check bucket existence: " ++ e)
    | .ok true => getUniqueAux ex baseName (baseName ++ "-" ++ toString (i + 1)) (i + 1) n
    | .ok false => .ok name

/-- getUniqueBucketName from src/go4gold.go lines 182-195: tries up to 10
candidate names (the base name, then base-1 .. base-9) and returns the
first one not taken. -/
def getUniqueBucketName (ex : String → Except String Bool) (baseName : String) :
    Except String String :=
  getUniqueAux ex baseName baseName 0 10

/-- A mutating S3 call issued by handleS3Bucket. -/
inductive S3Call
  | createBucket (name : String)
deriving Repr, DecidableEq

/-- handleS3Bucket from src/go4gold.go lines 161-179 (the retry-enabled
variant): derives a unique bucket name and always calls createS3Bucket
under it — an already-existing base name is never treated as converged.
`create` is the result of the retry-wrapped createS3Bucket call. Returns
the mutating calls issued and the result. -/
def handleS3Bucket (ex : String → Except String Bool)
    (create : String → Except String Unit) (desiredName : String) :
    List S3Call × Except String String :=
  match getUniqueBucketName ex desiredName with
  | .error e => ([], .error ("failed to get unique bucket name: " ++ e))
  | .ok uniqueBucketName =>
    match create uniqueBucketName with
    | .error e => ([S3Call.createBucket uniqueBucketName],
        .error ("failed to create S3 bucket: " ++ e))
    | .ok _ => ([S3Call.createBucket uniqueBucketName], .ok uniqueBucketName)

/-- If the first free candidate (all earlier ones taken) lies within the
remaining fuel, the loop returns it. -/
theorem getUniqueAux_first_free (ex : String → Except String Bool) (base : String) :
    ∀ (n i k : Nat), i ≤ k → k < i + n →
      (∀ j, i ≤ j → j < k → ex (nthCandidate base j) = .ok true) →
      ex (nthCandidate base k) = .ok false →
      getUniqueAux ex base (nthCandidate base i) i n = .ok (nthCandidate base k) := by
  intro n
  induction n with
  | zero => intro i k hik hk; omega
  | succ m ih =>
    intro i k hik hk htaken hfree
    rcases Nat.eq_or_lt_of_le hik with heq | hlt
    · subst heq
      simp [getUniqueAux, hfree]
    · have htk : ex (nthCandidate base i) = .ok true := htaken i le_rfl hlt
      have hstep : getUniqueAux ex base (nthCandidate base i) i (m + 1)
          = getUniqueAux ex base (base ++ "-" ++ toString (i + 1)) (i + 1) m := by
        simp [getUniqueAux, htk]
      rw [hstep]
      have hcand : base ++ "-" ++ toString (i + 1) = nthCandidate base (i + 1) := rfl
      rw [hcand]
      exact ih (i + 1) k hlt (by omega)
        (fun j hj1 hj2 => htaken j (by omega) hj2) hfree

/-- If every candidate within the remaining fuel is taken, the loop exhausts
its attempts. -/
theorem getUniqueAux_all_taken (ex : String → Except String Bool) (base : String) :
    ∀ (n i : Nat), (∀ j, i ≤ j → j < i + n → ex (nthCandidate base j) = .ok true) →
      getUniqueAux ex base (nthCandidate base i) i n
        = .error ("could not find a unique bucket name after 10 attempts") := by
  intro n
  induction n with
  | zero => intro i _; rfl
  | succ m ih =>
    intro i htaken
    have htk : ex (nthCandidate base i) = .ok true := htaken i le_rfl (by omega)
    have hstep : getUniqueAux ex base (nthCandidate base i) i (m + 1)
        = getUniqueAux ex base (base ++ "-" ++ toString (i + 1)) (i + 1) m := by
      simp [getUniqueAux, htk]
    rw [hstep]
    have hcand : base ++ "-" ++ toString (i + 1) = nthCandidate base (i + 1) := rfl
    rw [hcand]
    exact ih (i + 1) (fun j hj1 hj2 => htaken j (by omega) (by omega))

/-- C9: reconciling an ObjectStore whose name is taken never converges:
handleS3Bucket tries the base name and then base-1 .. base-9 (10 candidates
in total) and always creates a new bucket under the first free candidate —
if all 10 are taken it fails, and every successful pass has issued exactly
one create call for the name it returns. -/
theorem unique_bucket_name_always_creates (ex : String → Except String Bool)
    (create : String → Except String Unit) (base : String) :
    ((∀ j, j < 10 → ex (nthCandidate base j) = .ok true) →
      handleS3Bucket ex create base =
        ([], .error ("failed to get unique bucket name: " ++
          "could not find a unique bucket name after 10 attempts"))) ∧
    (∀ k, k < 10 → (∀ j, j < k → ex (nthCandidate base j) = .ok true) →
      ex (nthCandidate base k) = .ok false →
      (handleS3Bucket ex create base).1 = [S3Call.createBucket (nthCandidate base k)]) ∧
    (∀ r, (handleS3Bucket ex create base).2 = .ok r →
      (handleS3Bucket ex create base).1 = [S3Call.createBucket r]) := by
  refine ⟨?_, ?_, ?_⟩
  · intro htaken
    have h : getUniqueAux ex base base 0 10
        = .error ("could not find a unique bucket name after 10 attempts") :=
      getUniqueAux_all_taken ex base 10 0 (fun j hj1 hj2 => htaken j (by omega))
    simp [handleS3Bucket, getUniqueBucketName, h]
  · intro k hk htaken hfree
    have h : getUniqueAux ex base base 0 10 = .ok (nthCandidate base k) :=
      getUniqueAux_first_free ex base 10 0 k (Nat.zero_le k) (by omega)
        (fun j hj1 hj2 => htaken j hj2) hfree
    rcases hcr : create (nthCandidate base k) with e | u <;>
      simp [handleS3Bucket, getUniqueBucketName, h, hcr]
  · intro r hok
    rcases hu : getUniqueBucketName ex base with e | name
    · exfalso
      have hbad : (handleS3Bucket ex create base).2
          = .error ("failed to get unique bucket name: " ++ e) := by
        simp [handleS3Bucket, hu]
      rw [hbad] at hok
      cases hok
    · rcases hc : create name with e | u
      · exfalso
        have hbad : (handleS3Bucket ex create base).2
            = .error ("failed to create S3 bucket: " ++ e) := by
          simp [handleS3Bucket, hu, hc]
        rw [hbad] at hok
        cases hok
      · have h1 : handleS3Bucket ex create base
            = ([S3Call.createBucket name], .ok name) := by
          simp [handleS3Bucket, hu, hc]
        have hr : name = r := by
          rw [h1] at hok
          simpa using hok
        rw [h1, hr]

/-- An existence oracle under which the base name logs is taken and logs-1
is free. -/
def exLogsTaken : String → Except String Bool :=
  fun s => if s = "logs" then .ok true else .ok false

/-- C9 witness: with logs taken and logs-1 free, the pass creates a bucket
named logs-1 — it does not treat the taken base name as converged. -/
theorem unique_bucket_name_always_creates_witness :
    (handleS3Bucket exLogsTaken (fun _ => .ok ()) "logs").1
      = [S3Call.createBucket ("logs-1")] := by
  have h := (unique_bucket_name_always_creates exLogsTaken (fun _ => .ok ()) "logs").2.1
    1 (by omega) (fun j hj => by interval_cases j; rfl) (by rfl)
  rw [h]
  rfl

/-- The resource kinds the top levels dispatch on. -/
inductive ResourceKind
  | ec2Instance
  | s3Bucket
  | rdsInstance
  | alb
  | autoScalingGroup
deriving Repr, DecidableEq

/-- The declared names of the three kinds the go4gold.go top level handles:
an empty name means the kind is not declared and is skipped. -/
structure DeclaredNames where
  ec2Name : String
  s3Name : String
  rdsName : String
deriving Repr, DecidableEq

/-- The sequential top level of src/go4gold.go lines 85-107: each declared
kind's handler runs in order; a handler error is logged with log.Printf —
which does not abort — and the run continues with the remaining kinds.
Returns the per-kind outcomes in order. -/
def go4goldMain (cfg : DeclaredNames) (runEC2 runS3 runRDS : Except String Unit) :
    List (ResourceKind × Except String Unit) :=
  (if cfg.ec2Name ≠ "" then [(ResourceKind.ec2Instance, runEC2)] else [])
  ++ (if cfg.s3Name ≠ "" then [(ResourceKind.s3Bucket, runS3)] else [])
  ++ (if cfg.rdsName ≠ "" then [(ResourceKind.rdsInstance, runRDS)] else [])

/-- The concurrent top level of src/unnamed/part_000 lines 392-463: one
goroutine per declared kind, each running its handler to a terminal
outcome and sending any error into the buffered error channel; the channel
is closed and drained only after the WaitGroup's Wait returns, so errors
are reported only after every task has completed. The tasks share no state
(each owns a disjoint resource kind), so the fan-out is embedded as
independent evaluation of the per-kind results; the collected error list is
what the final drain loop logs. -/
def coordinate (declared : List ResourceKind) (run : ResourceKind → Except String Unit) :
    List (ResourceKind × Except String Unit) × List String :=
  let outcomes := declared.map (fun k => (k, run k))
  (outcomes, outcomes.filterMap (fun ko =>
    match ko.2 with
    | .error e => some e
    | .ok _ => none))

/-- C8: a Failed outcome in one declared kind never blocks the others. In
the sequential top level, with EC2 and S3 both declared, both outcomes
appear in the run's report whatever either result is — in particular the
S3 entry is exactly runS3, unaffected by runEC2. In the concurrent top
level, every declared kind's outcome is present in the aggregate, and the
error list reported after all tasks complete is exactly the errors of the
declared kinds. -/
theorem per_kind_failure_isolation (cfg : DeclaredNames)
    (runEC2 runS3 runRDS : Except String Unit)
    (declared : List ResourceKind) (run : ResourceKind → Except String Unit)
    (hE : cfg.ec2Name ≠ "") (hS : cfg.s3Name ≠ "") :
    (ResourceKind.ec2Instance, runEC2) ∈ go4goldMain cfg runEC2 runS3 runRDS ∧
    (ResourceKind.s3Bucket, runS3) ∈ go4goldMain cfg runEC2 runS3 runRDS ∧
    (∀ k, k ∈ declared → (k, run k) ∈ (coordinate declared run).1) ∧
    (coordinate declared run).2 = declared.filterMap (fun k =>
      match run k with
      | .error e => some e
      | .ok _ => none) := by
  refine ⟨?_, ?_, ?_, ?_⟩
  · simp [go4goldMain, hE]
  · simp [go4goldMain, hE, hS]
  · intro k hk
    simp only [coordinate]
    exact List.mem_map.mpr ⟨k, hk, rfl⟩
  · simp only [coordinate, List.filterMap_map]
    rfl

/-- C8 witness: EC2 declared and failing, S3 declared and succeeding — both
outcomes are present in the sequential report, and for the concurrent
coordinator with the same two kinds both terminal outcomes are collected
and the aggregated error list holds exactly the EC2 failure. -/
theorem per_kind_failure_isolation_witness :
    (ResourceKind.ec2Instance, Except.error ("EC2 instance error"))
      ∈ go4goldMain ⟨"web", "logs", ""⟩ (.error ("EC2 instance error")) (.ok ()) (.ok ()) ∧
    (ResourceKind.s3Bucket, Except.ok ())
      ∈ go4goldMain ⟨"web", "logs", ""⟩ (.error ("EC2 instance error")) (.ok ()) (.ok ()) ∧
    (coordinate [ResourceKind.ec2Instance, ResourceKind.s3Bucket]
      (fun k => if k = ResourceKind.ec2Instance then .error ("EC2 instance error") else .ok ())).2
      = ["EC2 instance error"] := by
  have h := per_kind_failure_isolation ⟨"web", "logs", ""⟩
    (.error ("EC2 instance error")) (.ok ()) (.ok ())
    [ResourceKind.ec2Instance, ResourceKind.s3Bucket]
    (fun k => if k = ResourceKind.ec2Instance then .error ("EC2 instance error") else .ok ())
    (by decide) (by decide)
  refine ⟨h.1, h.2.1, ?_⟩
  rw [h.2.2.2]
  rfl

end OnCloud
